import Mathlib

/-!
# The network interface server of the SmartScope (`src/net/interfaceserver.cpp`)

A shallow embedding of `labnation::InterfaceServer`:

* the lifecycle manager (`ManageState`, `SetState`, `Disconnect`,
  `CleanSocketThread`, `Start`, `Stop`, `Destroy`);
* the control session (`ControlSocketServer` and its thread entry
  `ThreadStartControlSocketServer`): the receive loop, the frame gate, the
  command dispatch, the reply send loop and the copy-down of the
  reassembly buffer.

Threads other than the one being modelled, the sockets and the scope driver
are the environment: what they do is an input of the model (the values a
spin loop reads, what `recv` and `send` return, what the driver answers).
Loops that the source does not bound take a fuel argument and return `none`
when it runs out.
-/

/- The reuse pass of the code generator is switched off: with it, evaluating
updates of records that hold closures (the buffers) is not reliable. -/
set_option compiler.reuse false

namespace labnation

/-! ## Lifecycle states and the member fields of the server -/

/-- The enum `InterfaceServer::State`. -/
inductive State where
  | Uninitialized
  | Starting
  | Started
  | Stopping
  | Stopped
  | Destroying
  | Destroyed
  deriving DecidableEq, Repr

/-- Byte-addressed memory starting at the base of a buffer: cell `i` is the
byte at `base + i`.  Cells past the allocated size are whatever lies behind
the buffer; every theorem holds for all contents. -/
abbrev Mem := Nat → Nat

/-- The member fields of `InterfaceServer` that the modelled code reads or
writes.  Thread handles are numbers, `0` being the unset handle; sockets are
descriptors, `-1` being the sentinel.  `_stateChanged` records whether the
callback pointer is non-null. -/
structure InterfaceServer where
  _state : State
  _stateRequested : State
  _stateChanged : Bool
  _thread_state : Nat
  _thread_ctrl : Nat
  _thread_data : Nat
  _sock_ctrl_listen : Int
  _sock_ctrl : Int
  _sock_data_listen : Int
  _sock_data : Int
  _port : Nat
  _port_data : Nat
  _connected : Bool
  _disconnect_called : Bool
  msg_buf : Mem
  tx_buf : Mem

/-- `InterfaceServer::Start`. -/
def Start (s : InterfaceServer) : InterfaceServer :=
  { s with _stateRequested := State.Started }

/-- `InterfaceServer::Stop`. -/
def Stop (s : InterfaceServer) : InterfaceServer :=
  { s with _stateRequested := State.Stopped }

/-- `InterfaceServer::Destroy`. -/
def Destroy (s : InterfaceServer) : InterfaceServer :=
  { s with _stateRequested := State.Destroyed }

/-- `InterfaceServer::GetState`. -/
def GetState (s : InterfaceServer) : State := s._state

/-! ## The lifecycle manager -/

/-- What the manager thread does that another thread or the operator can
observe, in order. -/
inductive Event where
  /-- `SetState` wrote this value to `_state`. -/
  | published (st : State)
  /-- `SetState` fired the state-changed callback. -/
  | notified (st : State)
  /-- `ManageState` spawned the control session thread. -/
  | spawnedControl
  /-- `Disconnect` was called. -/
  | disconnect
  /-- `Disconnect` got past its guards and tore the sessions down. -/
  | tornDown
  /-- `Disconnect` found `_connected` set on a repeated call. -/
  | disconnectTwice
  deriving DecidableEq, Repr

/-- The manager thread's view: the server and the log of its actions. -/
structure Manager where
  srv : InterfaceServer
  trace : List Event

/-- A call that either returns or throws the `NetException` of the source. -/
inductive Res (α : Type) where
  | ok (a : α)
  | threw (a : α)

/-- `InterfaceServer::SetState`, called on thread `self`. -/
def SetState (self : Nat) (st : State) (m : Manager) : Res Manager :=
  if self ≠ m.srv._thread_state then Res.threw m
  else
    let m1 : Manager :=
      { srv := { m.srv with _state := st }, trace := m.trace ++ [Event.published st] }
    if m1.srv._stateChanged then
      Res.ok { m1 with trace := m1.trace ++ [Event.notified st] }
    else Res.ok m1

/-- `InterfaceServer::CleanSocketThread` on the cells `(thread, listener,
socket)`: both sockets are shut down and reset when they are `> 0`, the thread
is joined when set, and the handle is cleared. -/
def CleanSocketThread (cells : Nat × Int × Int) : Nat × Int × Int :=
  let listener := if cells.2.1 > 0 then -1 else cells.2.1
  let socket := if cells.2.2 > 0 then -1 else cells.2.2
  (0, listener, socket)

/-- `InterfaceServer::Disconnect`, called on thread `self`.  (The calls of
`UnregisterService` and the release of the two buffers change none of the
fields modelled.) -/
def Disconnect (self : Nat) (m : Manager) : Res Manager :=
  let m0 : Manager := { m with trace := m.trace ++ [Event.disconnect] }
  if self ≠ m0.srv._thread_state then Res.threw m0
  else if m0.srv._disconnect_called then
    if m0.srv._connected then
      Res.ok { m0 with trace := m0.trace ++ [Event.disconnectTwice] }
    else Res.ok m0
  else
    let c := CleanSocketThread
      (m0.srv._thread_ctrl, m0.srv._sock_ctrl_listen, m0.srv._sock_ctrl)
    let d := CleanSocketThread
      (m0.srv._thread_data, m0.srv._sock_data_listen, m0.srv._sock_data)
    Res.ok
      { srv := { m0.srv with
                  _disconnect_called := true
                  _connected := false
                  _thread_ctrl := c.1
                  _sock_ctrl_listen := c.2.1
                  _sock_ctrl := c.2.2
                  _thread_data := d.1
                  _sock_data_listen := d.2.1
                  _sock_data := d.2.2 }
        trace := m0.trace ++ [Event.tornDown] }

/-- The spin loop `while(_sock_data_listen == -1) sleep(10ms)`: `polls` are
the values of `_sock_data_listen` that the successive evaluations of the
condition read (the control session thread writes the field meanwhile).  The
result is the first value other than `-1`, or `none` when every poll supplied
read `-1`. -/
def spinWait : List Int → Option Int
  | [] => none
  | v :: rest => if v = -1 then spinWait rest else some v

/-- What the environment contributes to one iteration of `ManageState`: the
handle `pthread_create` stores for the control thread and the values the spin
loop reads. -/
structure TickEnv where
  ctrlThread : Nat
  polls : List Int

/-- How one iteration of the loop of `ManageState` ends. -/
inductive Tick where
  /-- The loop condition `_state != Destroyed` is false: `ManageState` returns. -/
  | exited (m : Manager)
  /-- The requested state equals the current one: `continue`. -/
  | idle (m : Manager)
  /-- The `switch` ran one of its three cases to the `break`. -/
  | moved (m : Manager)
  /-- A `NetException` was thrown. -/
  | thrown (m : Manager)
  /-- The spin loop has not seen the data listener yet. -/
  | waiting (m : Manager)

/-- The manager after an iteration, however it ended. -/
def Tick.manager : Tick → Manager
  | Tick.exited m => m
  | Tick.idle m => m
  | Tick.moved m => m
  | Tick.thrown m => m
  | Tick.waiting m => m

/-- One iteration of the `while (_state != Destroyed)` loop of
`InterfaceServer::ManageState`, run on thread `self`. -/
def ManageState (self : Nat) (env : TickEnv) (m : Manager) : Tick :=
  if m.srv._state = State.Destroyed then Tick.exited m
  else if m.srv._state = State.Destroying ∨ m.srv._state = State.Starting
      ∨ m.srv._state = State.Stopping then Tick.thrown m
  else
    let nextState := m.srv._stateRequested
    if nextState = m.srv._state then Tick.idle m
    else
      match nextState with
      | State.Started =>
        match SetState self State.Starting m with
        | Res.threw m1 => Tick.thrown m1
        | Res.ok m1 =>
          let m2 : Manager :=
            { srv := { m1.srv with _thread_ctrl := env.ctrlThread }
              trace := m1.trace ++ [Event.spawnedControl] }
          match spinWait env.polls with
          | none => Tick.waiting m2
          | some fd =>
            match SetState self State.Started
                { m2 with srv := { m2.srv with _sock_data_listen := fd } } with
            | Res.threw m3 => Tick.thrown m3
            | Res.ok m3 => Tick.moved m3
      | State.Stopped =>
        match SetState self State.Stopping m with
        | Res.threw m1 => Tick.thrown m1
        | Res.ok m1 =>
          match Disconnect self m1 with
          | Res.threw m2 => Tick.thrown m2
          | Res.ok m2 =>
            match SetState self State.Stopped m2 with
            | Res.threw m3 => Tick.thrown m3
            | Res.ok m3 => Tick.moved m3
      | State.Destroyed =>
        match SetState self State.Destroying m with
        | Res.threw m1 => Tick.thrown m1
        | Res.ok m1 =>
          match Disconnect self m1 with
          | Res.threw m2 => Tick.thrown m2
          | Res.ok m2 =>
            match SetState self State.Destroyed m2 with
            | Res.threw m3 => Tick.thrown m3
            | Res.ok m3 => Tick.moved m3
      | _ => Tick.thrown m

/-- What can happen to the server from outside the session threads: a call of
the facade, from any thread, or an iteration of the manager loop. -/
inductive Action where
  | start
  | stop
  | destroy
  | tick (env : TickEnv)

/-- One action; the manager loop runs on the thread stored in `_thread_state`. -/
def step (m : Manager) : Action → Manager
  | Action.start => { m with srv := Start m.srv }
  | Action.stop => { m with srv := Stop m.srv }
  | Action.destroy => { m with srv := Destroy m.srv }
  | Action.tick env => (ManageState m.srv._thread_state env m).manager

/-- A sequence of actions. -/
def run (m : Manager) : List Action → Manager
  | [] => m
  | a :: as => run (step m a) as

/-- The server the constructor leaves behind (`_state = Uninitialized`,
`_stateRequested = Stopped`), with the manager thread `tid`.  The initial
values of the other members come from the class declaration, which is not
part of the sources at hand: the sockets are taken at the sentinel and the
session threads unset. -/
def construct (tid : Nat) (callback : Bool) : Manager :=
  { srv :=
      { _state := State.Uninitialized
        _stateRequested := State.Stopped
        _stateChanged := callback
        _thread_state := tid
        _thread_ctrl := 0
        _thread_data := 0
        _sock_ctrl_listen := -1
        _sock_ctrl := -1
        _sock_data_listen := -1
        _sock_data := -1
        _port := 0
        _port_data := 0
        _connected := false
        _disconnect_called := false
        msg_buf := fun _ => 0
        tx_buf := fun _ => 0 }
    trace := [] }

/-! ## Constants and wire format of the control protocol -/

/-- Modelled from the spec: the header size `HDR_SZ = 3` of the header
`labnation/interfaceserver.h`, which is not part of the sources at hand. -/
def HDR_SZ : Nat := 3

/-- Modelled from the spec: `sizeof(Message)` for the packed struct of a
little-endian `uint16` length, a `uint8` command and a flexible `data` member
declared in `labnation/interfaceserver.h`; the spec gives the bytes a reply
puts on the wire as `length + HDR_SZ`, where the code adds `sizeof(Message)`. -/
def sizeofMessage : Nat := 3

/-- Modelled from the spec: `sizeof(ControllerMessage)` for the struct of
`ctrl` (uint8), `addr` (uint16), `len` (uint16) and a flexible `data` member
declared in `labnation/interfaceserver.h`, laid out without padding. -/
def sizeofControllerMessage : Nat := 5

/-- Modelled from the spec: `sizeof(_port_data)`, the two bytes of the data
port member declared in `labnation/interfaceserver.h`. -/
def sizeofPortData : Nat := 2

/-- The constants of `labnation/interfaceserver.h` whose values neither the
sources at hand nor the spec give: the buffer sizes and the command codes. -/
structure Config where
  BUF_SIZE : Nat
  MSG_BUF_SIZE : Nat
  SERIAL : Nat
  PIC_FW_VERSION : Nat
  FLUSH : Nat
  FLASH_FPGA : Nat
  DISCONNECT : Nat
  DATA : Nat
  DATA_PORT : Nat
  ACQUISITION : Nat
  SET : Nat
  GET : Nat

/-- The case of the `switch (request->cmd)` that a command byte selects. -/
inductive Command where
  | SERIAL
  | PIC_FW_VERSION
  | FLUSH
  | FLASH_FPGA
  | DISCONNECT
  | DATA
  | DATA_PORT
  | ACQUISITION
  | SET
  | GET
  | unsupported
  deriving DecidableEq, Repr

/-- Selection of the `case` label, in the order of the source. -/
def Config.decode (c : Config) (b : Nat) : Command :=
  if b = c.SERIAL then Command.SERIAL
  else if b = c.PIC_FW_VERSION then Command.PIC_FW_VERSION
  else if b = c.FLUSH then Command.FLUSH
  else if b = c.FLASH_FPGA then Command.FLASH_FPGA
  else if b = c.DISCONNECT then Command.DISCONNECT
  else if b = c.DATA then Command.DATA
  else if b = c.DATA_PORT then Command.DATA_PORT
  else if b = c.ACQUISITION then Command.ACQUISITION
  else if b = c.SET then Command.SET
  else if b = c.GET then Command.GET
  else Command.unsupported

/-- A control frame: the `length` field of the header, the command byte and
the bytes after the header. -/
structure Message where
  length : Nat
  cmd : Nat
  data : List Nat
  deriving DecidableEq, Repr

/-- Store one byte. -/
def write (m : Mem) (a v : Nat) : Mem := fun i => if i = a then v else m i

/-- Store a run of bytes from address `a` upwards. -/
def writeBytes (m : Mem) (a : Nat) : List Nat → Mem
  | [] => m
  | b :: bs => writeBytes (write m a b) (a + 1) bs

/-- The `n` bytes from address `a` upwards. -/
def window (m : Mem) (a n : Nat) : List Nat :=
  (List.range n).map (fun i => m (a + i))

/-- Load a little-endian `uint16`. -/
def rd16 (m : Mem) (a : Nat) : Nat := m a + 256 * m (a + 1)

/-- Store a `uint16`, little-endian; the value wraps at `2^16`. -/
def wr16 (m : Mem) (a v : Nat) : Mem :=
  write (write m a (v % 256)) (a + 1) (v / 256 % 256)

/-- `memcpy(&m[dst], &m[src], n)` inside one buffer, as a byte copy in
ascending address order.  (Where the two ranges overlap the C standard leaves
`memcpy` undefined; the ascending copy is the behaviour modelled.) -/
def memcpy (m : Mem) (dst src : Nat) : Nat → Mem
  | 0 => m
  | n + 1 => memcpy (write m dst (m src)) (dst + 1) (src + 1) n

/-- Subtraction of two `uint` (32-bit) values. -/
def sub32 (a b : Nat) : Nat := (a + 4294967296 - b) % 4294967296

/-- Addition of two `uint` (32-bit) values. -/
def add32 (a b : Nat) : Nat := (a + b) % 4294967296

/-! ## The scope driver, the sockets and the session state -/

/-- A call of the scope driver, with the arguments passed by value and the
bytes behind the pointer argument it reads. -/
inductive ScopeCall where
  | GetSerial
  | GetPicFirmwareVersion
  | FlushDataPipe
  | FlashFpga (length : Int) (data : List Nat)
  | GetData (length : Nat)
  | GetAcquisition (length : Nat)
  | SetControllerRegister (ctrl addr len : Nat) (data : List Nat)
  | GetControllerRegister (ctrl addr len : Nat)
  deriving DecidableEq, Repr

/-- The scope driver (`SmartScopeUsb`), an external collaborator: each call
maps the driver state to an answer and a new state; the answer `none` is a
thrown `ScopeIOException`.  Calls that fill a buffer answer with the bytes
they store there; `GetAcquisition` returns their count. -/
structure Scope (σ : Type) where
  GetSerial : σ → Option (List Nat) × σ
  GetPicFirmwareVersion : σ → Option Nat × σ
  FlushDataPipe : σ → Option Unit × σ
  FlashFpga : σ → Int → List Nat → Option Unit × σ
  GetData : σ → Nat → Option (List Nat) × σ
  GetAcquisition : σ → Nat → Option (List Nat) × σ
  SetControllerRegister : σ → Nat → Nat → Nat → List Nat → Option Unit × σ
  GetControllerRegister : σ → Nat → Nat → Nat → Option (List Nat) × σ

/-- The environment of a control session: the scope driver, the control
socket's `send` (given the bytes sent so far and the count requested, `none`
for `-1` or the count accepted) and the handle `pthread_create` stores for the
data thread. -/
structure Env (σ : Type) where
  scope : Scope σ
  send : List Nat → Nat → Option Nat
  dataThread : Nat

/-- The state of a control session: the server members, the locals
`msg_buf_len` and `msg_buf_offset` of `ControlSocketServer`, the driver state
and the session's history (driver calls, bytes sent on the control socket,
number of `recv` calls, requests that entered the `switch`), and the bytes the
client has sent that `recv` has not returned yet. -/
structure Session (σ : Type) where
  srv : InterfaceServer
  msg_buf_len : Nat
  msg_buf_offset : Nat
  scope : σ
  calls : List ScopeCall
  wire : List Nat
  recvs : Nat
  dispatched : List Message
  inbox : List Nat

/-- How a block of statements is left. -/
inductive Flow (α : Type) where
  /-- Control reaches the statement after the block (`break` in the `switch`,
  the next iteration in a loop, a blocked `recv` at the end of the input). -/
  | next (a : α)
  /-- The frame loop is left for the label `copy_down`. -/
  | leave (a : α)
  /-- `return`. -/
  | returned (a : α)
  /-- A `NetException` is thrown. -/
  | netException (a : α)
  /-- A `ScopeIOException` is thrown. -/
  | scopeIOException (a : α)

/-- The state carried by a `Flow`. -/
def Flow.state {α : Type} : Flow α → α
  | Flow.next a => a
  | Flow.leave a => a
  | Flow.returned a => a
  | Flow.netException a => a
  | Flow.scopeIOException a => a

namespace Session

variable {σ : Type}

/-- `response->length`, read back from the transmit buffer. -/
def respLength (s : Session σ) : Nat := rd16 s.srv.tx_buf 0

/-- Assignment to `response->length`. -/
def setRespLength (v : Nat) (s : Session σ) : Session σ :=
  { s with srv := { s.srv with tx_buf := wr16 s.srv.tx_buf 0 v } }

/-- Bytes stored from `response->data + at` upwards. -/
def storeData (at_ : Nat) (bs : List Nat) (s : Session σ) : Session σ :=
  { s with srv := { s.srv with tx_buf := writeBytes s.srv.tx_buf (sizeofMessage + at_) bs } }

/-- A driver call is logged and the driver state replaced. -/
def called (c : ScopeCall) (sc : σ) (s : Session σ) : Session σ :=
  { s with scope := sc, calls := s.calls ++ [c] }

/-- `pthread_create(&_thread_data, ...)` storing the handle `h`. -/
def spawned (h : Nat) (s : Session σ) : Session σ :=
  { s with srv := { s.srv with _thread_data := h } }

/-- `Stop()` from the session thread. -/
def stop (s : Session σ) : Session σ := { s with srv := Stop s.srv }

/-- `Destroy()` from the session thread. -/
def destroy (s : Session σ) : Session σ := { s with srv := Destroy s.srv }

end Session

/-! ## The control session -/

/-- The fallback serial `"0254301KA16"` of the `SERIAL` case, as bytes. -/
def fallbackSerial : List Nat := [48, 50, 53, 52, 51, 48, 49, 75, 65, 49, 54]

/-- The bytes of a `uint32` in memory (little-endian host). -/
def le32 (v : Nat) : List Nat :=
  [v % 256, v / 256 % 256, v / 65536 % 256, v / 16777216 % 256]

/-- The bytes of a `uint16` in memory (little-endian host). -/
def le16 (v : Nat) : List Nat := [v % 256, v / 256 % 256]

/-- The request that enters the `switch`, as the frame the header at `req`
announces: its length field, its command and the `length - HDR_SZ` bytes
behind the header. -/
def requestAt (m : Mem) (req : Nat) : Message :=
  { length := rd16 m req
    cmd := m (req + 2)
    data := window m (req + sizeofMessage) (rd16 m req - HDR_SZ) }

variable {σ : Type}

/-- The `do ... while(response->length == 0)` loop of the `ACQUISITION`
case. -/
def acquire (cfg : Config) (env : Env σ) : Nat → Session σ → Option (Flow (Session σ))
  | 0, _ => none
  | fuel + 1, s =>
    match env.scope.GetAcquisition s.scope (cfg.BUF_SIZE - HDR_SZ) with
    | (none, sc) =>
      some (Flow.scopeIOException
        (s.called (ScopeCall.GetAcquisition (cfg.BUF_SIZE - HDR_SZ)) sc))
    | (some d, sc) =>
      let s1 := ((s.called (ScopeCall.GetAcquisition (cfg.BUF_SIZE - HDR_SZ)) sc).storeData
        0 d).setRespLength d.length
      if s1.respLength = 0 then acquire cfg env fuel s1 else some (Flow.next s1)

/-- The `switch (request->cmd)` of `ControlSocketServer` for the request at
offset `req` of the reassembly buffer; `Flow.next` is a `break`. -/
def dispatch (cfg : Config) (env : Env σ) (fuel : Nat) (req : Nat) (s : Session σ) :
    Option (Flow (Session σ)) :=
  let msg := s.srv.msg_buf
  match cfg.decode (msg (req + 2)) with
  | Command.SERIAL =>
    match env.scope.GetSerial s.scope with
    | (none, sc) => some (Flow.scopeIOException (s.called ScopeCall.GetSerial sc))
    | (some serial, sc) =>
      let serial := if serial.length = 0 then fallbackSerial else serial
      let s1 := (s.called ScopeCall.GetSerial sc).setRespLength 11
      some (Flow.next (s1.storeData 0 ((serial ++ [0]).take s1.respLength)))
  | Command.PIC_FW_VERSION =>
    match env.scope.GetPicFirmwareVersion s.scope with
    | (none, sc) =>
      some (Flow.scopeIOException (s.called ScopeCall.GetPicFirmwareVersion sc))
    | (some version, sc) =>
      let s1 := (s.called ScopeCall.GetPicFirmwareVersion sc).setRespLength 4
      some (Flow.next (s1.storeData 0 ((le32 version).take s1.respLength)))
  | Command.FLUSH =>
    let s1 := s.setRespLength 0
    match env.scope.FlushDataPipe s1.scope with
    | (none, sc) => some (Flow.scopeIOException (s1.called ScopeCall.FlushDataPipe sc))
    | (some _, sc) => some (Flow.next (s1.called ScopeCall.FlushDataPipe sc))
  | Command.FLASH_FPGA =>
    let s1 := (s.setRespLength 1).storeData 0 [255]
    let n : Int := (rd16 msg req : Int) - (HDR_SZ : Int)
    let d := window msg (req + sizeofMessage) n.toNat
    match env.scope.FlashFpga s1.scope n d with
    | (none, sc) => some (Flow.scopeIOException (s1.called (ScopeCall.FlashFpga n d) sc))
    | (some _, sc) => some (Flow.next (s1.called (ScopeCall.FlashFpga n d) sc))
  | Command.DISCONNECT =>
    let s1 := s.setRespLength 0
    match env.scope.FlushDataPipe s1.scope with
    | (none, sc) => some (Flow.scopeIOException (s1.called ScopeCall.FlushDataPipe sc))
    | (some _, sc) => some (Flow.returned (s1.called ScopeCall.FlushDataPipe sc).stop)
  | Command.DATA =>
    if s.srv._thread_data ≠ 0 then some (Flow.netException s)
    else
      let s1 := s.setRespLength (rd16 msg (req + sizeofMessage))
      match env.scope.GetData s1.scope s1.respLength with
      | (none, sc) =>
        some (Flow.scopeIOException (s1.called (ScopeCall.GetData s1.respLength) sc))
      | (some d, sc) =>
        some (Flow.next ((s1.called (ScopeCall.GetData s1.respLength) sc).storeData 0 d))
  | Command.DATA_PORT =>
    let s1 := s.spawned env.dataThread
    let s2 := s1.setRespLength sizeofPortData
    some (Flow.next (s2.storeData 0 ((le16 s2.srv._port_data).take s2.respLength)))
  | Command.ACQUISITION =>
    if s.srv._thread_data ≠ 0 then some (Flow.netException s)
    else acquire cfg env fuel s
  | Command.SET =>
    let s1 := s.setRespLength 0
    let ctrl_msg := req + sizeofMessage
    let ctrl := msg ctrl_msg
    let addr := rd16 msg (ctrl_msg + 1)
    let len := rd16 msg (ctrl_msg + 3)
    let d := window msg (ctrl_msg + sizeofControllerMessage) len
    match env.scope.SetControllerRegister s1.scope ctrl addr len d with
    | (none, sc) =>
      some (Flow.scopeIOException
        (s1.called (ScopeCall.SetControllerRegister ctrl addr len d) sc))
    | (some _, sc) =>
      some (Flow.next (s1.called (ScopeCall.SetControllerRegister ctrl addr len d) sc))
  | Command.GET =>
    let ctrl_msg := req + sizeofMessage
    let ctrl := msg ctrl_msg
    let addr := rd16 msg (ctrl_msg + 1)
    let len := rd16 msg (ctrl_msg + 3)
    let s1 := (s.storeData 0 (window msg ctrl_msg sizeofControllerMessage)).setRespLength
      (sizeofControllerMessage + len)
    match env.scope.GetControllerRegister s1.scope ctrl addr len with
    | (none, sc) =>
      some (Flow.scopeIOException
        (s1.called (ScopeCall.GetControllerRegister ctrl addr len) sc))
    | (some d, sc) =>
      some (Flow.next ((s1.called (ScopeCall.GetControllerRegister ctrl addr len) sc).storeData
        sizeofControllerMessage d))
  | Command.unsupported => some (Flow.returned s.stop)

/-- The loop `while(sent < response->length) sent += send(...)`: `sent` is a
`uint`, so a `send` of `-1` steps it back by one modulo `2^32`.  The result is
the bytes on the wire after the loop. -/
def sendAll (env : Env σ) (tx : Mem) (length : Nat) : Nat → Nat → List Nat → Option (List Nat)
  | 0, _, _ => none
  | fuel + 1, sent, wire =>
    if sent < length then
      match env.send wire (length - sent) with
      | none => sendAll env tx length fuel (sub32 sent 1) wire
      | some k =>
        sendAll env tx length fuel (add32 sent (min k (length - sent)))
          (wire ++ window tx sent (min k (length - sent)))
    else some wire

/-- The block `if (response->length != 0) { ... }` that sends the reply. -/
def reply (env : Env σ) (fuel : Nat) (s : Session σ) : Option (Session σ) :=
  if s.respLength ≠ 0 then
    let s1 := s.setRespLength (s.respLength + sizeofMessage)
    match sendAll env s1.srv.tx_buf s1.respLength fuel 0 s1.wire with
    | none => none
    | some w => some { s1 with wire := w }
  else some s

/-- The two tests that let a request through to the `switch`: the loop
condition `msg_buf_len - msg_buf_offset > sizeof(Message) - 1` and the
negation of `msg_buf_len - msg_buf_offset < request->length`. -/
def frameGate (s : Session σ) : Bool :=
  decide (sub32 s.msg_buf_len s.msg_buf_offset > sizeofMessage - 1) &&
    !decide (sub32 s.msg_buf_len s.msg_buf_offset < rd16 s.srv.msg_buf s.msg_buf_offset)

/-- The two statements before the `switch`: `msg_buf_offset +=
request->length` and `response->cmd = request->cmd` (and the request is
noted in the history). -/
def enterSwitch (s : Session σ) : Session σ :=
  { s with
    srv := { s.srv with
      tx_buf := write s.srv.tx_buf 2 (s.srv.msg_buf (s.msg_buf_offset + 2)) }
    msg_buf_offset := add32 s.msg_buf_offset (rd16 s.srv.msg_buf s.msg_buf_offset)
    dispatched := s.dispatched ++ [requestAt s.srv.msg_buf s.msg_buf_offset] }

/-- What follows the `switch`: after a `break` the reply block runs and the
frame loop goes on; a `return` or an exception leaves `ControlSocketServer`. -/
def afterSwitch (env : Env σ) (fuel : Nat) :
    Option (Flow (Session σ)) → Option (Flow (Session σ))
  | none => none
  | some (Flow.next s2) =>
    match reply env fuel s2 with
    | none => none
    | some s3 => some (Flow.next s3)
  | some other => some other

/-- One iteration of the frame loop `while(msg_buf_len - msg_buf_offset >
sizeof(Message) - 1)`: `Flow.next` goes on to the next iteration, `Flow.leave`
to `copy_down` (the condition is false, or the `goto`). -/
def drainBody (cfg : Config) (env : Env σ) (fuel : Nat) (s : Session σ) :
    Option (Flow (Session σ)) :=
  if sub32 s.msg_buf_len s.msg_buf_offset > sizeofMessage - 1 then
    if sub32 s.msg_buf_len s.msg_buf_offset < rd16 s.srv.msg_buf s.msg_buf_offset then
      some (Flow.leave s)
    else
      afterSwitch env fuel (dispatch cfg env fuel s.msg_buf_offset (enterSwitch s))
  else some (Flow.leave s)

/-- The frame loop, at most `n` iterations; the inner loops get `fuel`. -/
def drainLoop (cfg : Config) (env : Env σ) (fuel : Nat) :
    Nat → Session σ → Option (Flow (Session σ))
  | 0, _ => none
  | n + 1, s =>
    match drainBody cfg env fuel s with
    | none => none
    | some (Flow.next s1) => drainLoop cfg env fuel n s1
    | some other => some other

/-- The frame loop with every loop bounded by `fuel`. -/
def drain (cfg : Config) (env : Env σ) (fuel : Nat) (s : Session σ) :
    Option (Flow (Session σ)) :=
  drainLoop cfg env fuel fuel s

/-- The statements at the label `copy_down`. -/
def copyDown (s : Session σ) : Session σ :=
  { s with
    srv := { s.srv with
      msg_buf :=
        if s.msg_buf_len ≠ s.msg_buf_offset ∧ s.msg_buf_offset > 0 then
          memcpy s.srv.msg_buf 0 s.msg_buf_offset (sub32 s.msg_buf_len s.msg_buf_offset)
        else s.srv.msg_buf }
    msg_buf_len := sub32 s.msg_buf_len s.msg_buf_offset
    msg_buf_offset := 0 }

/-- What the environment does during one iteration of the receive loop. -/
inductive Ev where
  /-- `recv` returns the next bytes the client sent, at most `n` of them and
  at most the size requested; `cleared` tells whether the manager's
  `Disconnect` cleared `_connected` while `recv` was blocked. -/
  | recv (n : Nat) (cleared : Bool)
  /-- `recv` returns `-1`. -/
  | recvError
  /-- The manager's `Disconnect` clears `_connected` between two iterations. -/
  | cleared

/-- The call `recv(_sock_ctrl, &msg_buf[msg_buf_len], MSG_BUF_SIZE -
msg_buf_len, 0)` returning a count `ret >= 0`, followed by `msg_buf_len +=
ret`: the next `ret` pending bytes are stored behind the buffered ones, where
`ret` is at most `n`, at most the size requested and at most what is pending.
`cleared` tells whether `_connected` was cleared meanwhile. -/
def recvStep (cfg : Config) (s : Session σ) (n : Nat) (cleared : Bool) : Session σ :=
  let ret := min (min n (sub32 cfg.MSG_BUF_SIZE s.msg_buf_len)) s.inbox.length
  { s with
    srv := { s.srv with
      msg_buf := writeBytes s.srv.msg_buf s.msg_buf_len (s.inbox.take ret)
      _connected := !cleared }
    msg_buf_len := add32 s.msg_buf_len ret
    recvs := s.recvs + 1
    inbox := s.inbox.drop ret }

/-- The loop `while (_connected) { recv ...; frame loop; copy_down }` of
`ControlSocketServer`, one iteration per event.  `Flow.next` at the end of the
events is the session blocked in its next `recv`. -/
def recvLoop (cfg : Config) (env : Env σ) (fuel : Nat) :
    List Ev → Session σ → Option (Flow (Session σ))
  | [], s => if s.srv._connected then some (Flow.next s) else some (Flow.returned s)
  | ev :: evs, s =>
    if s.srv._connected then
      match ev with
      | Ev.cleared =>
        recvLoop cfg env fuel evs { s with srv := { s.srv with _connected := false } }
      | Ev.recvError => some (Flow.netException { s with recvs := s.recvs + 1 })
      | Ev.recv n cleared =>
        if (recvStep cfg s n cleared).msg_buf_len < sizeofMessage - 1 then
          recvLoop cfg env fuel evs (recvStep cfg s n cleared)
        else if (recvStep cfg s n cleared).srv._connected then
          match drain cfg env fuel (recvStep cfg s n cleared) with
          | none => none
          | some (Flow.leave s2) => recvLoop cfg env fuel evs (copyDown s2)
          | some (Flow.next s2) => recvLoop cfg env fuel evs (copyDown s2)
          | some other => some other
        else some (Flow.returned (recvStep cfg s n cleared).stop)
    else some (Flow.returned s)

/-- The statements of `ControlSocketServer` between the accepted connection
and the receive loop: `_connected = true`, both buffers allocated and zeroed,
with the locals `msg_buf_len = 0` and `msg_buf_offset = 0`. -/
def enterLoop (cfg : Config) (s : Session σ) : Session σ :=
  { s with
    srv := { s.srv with
      _connected := true
      tx_buf := fun i => if i < cfg.BUF_SIZE then 0 else s.srv.tx_buf i
      msg_buf := fun i => if i < cfg.MSG_BUF_SIZE then 0 else s.srv.msg_buf i }
    msg_buf_len := 0
    msg_buf_offset := 0 }

/-- The `try`/`catch` of `ThreadStartControlSocketServer` around the session:
a `NetException` requests `Stopped`, a `ScopeIOException` requests `Destroyed`.
The result tells whether the thread function has returned (`true`) or the
session is blocked in `recv` (`false`). -/
def threadOutcome : Flow (Session σ) → Bool × Session σ
  | Flow.next s => (false, s)
  | Flow.leave s => (false, s)
  | Flow.returned s => (true, s)
  | Flow.netException s => (true, s.stop)
  | Flow.scopeIOException s => (true, s.destroy)

/-- `ThreadStartControlSocketServer` from the receive loop on. -/
def ThreadStartControlSocketServer (cfg : Config) (env : Env σ) (fuel : Nat)
    (evs : List Ev) (s : Session σ) : Option (Bool × Session σ) :=
  (recvLoop cfg env fuel evs s).map threadOutcome

/-! ## Concrete inputs -/

/-- Values for the constants of the header: buffer sizes as the spec bounds
them and pairwise different command codes. -/
def demoConfig : Config :=
  { BUF_SIZE := 8388608
    MSG_BUF_SIZE := 1048576
    SERIAL := 13
    PIC_FW_VERSION := 27
    FLUSH := 14
    FLASH_FPGA := 36
    DISCONNECT := 15
    DATA := 26
    DATA_PORT := 42
    ACQUISITION := 52
    SET := 25
    GET := 24 }

/-- A driver that never fails: it reports an empty serial, firmware version
`0x01020304`, and fills buffers with fixed bytes. -/
def demoScope : Scope Unit :=
  { GetSerial := fun u => (some [], u)
    GetPicFirmwareVersion := fun u => (some 16909060, u)
    FlushDataPipe := fun u => (some (), u)
    FlashFpga := fun u _ _ => (some (), u)
    GetData := fun u n => (some (List.replicate n 170), u)
    GetAcquisition := fun u _ => (some [1, 2, 3, 4], u)
    SetControllerRegister := fun u _ _ _ _ => (some (), u)
    GetControllerRegister := fun u _ _ n => (some (List.replicate n 85), u) }

/-- The never-failing driver with a control socket whose `send` takes every
byte offered; `pthread_create` stores the handle `3` for the data thread. -/
def demoEnv : Env Unit :=
  { scope := demoScope
    send := fun _ n => some n
    dataThread := 3 }

/-- A control session that has just accepted its client, who has sent the
bytes `inbox`: started server, buffers zeroed, no data thread. -/
def demoSession (inbox : List Nat) : Session Unit :=
  enterLoop demoConfig
    { srv := { (construct 7 false).srv with
        _state := State.Started, _stateRequested := State.Started, _port_data := 4660 }
      msg_buf_len := 0
      msg_buf_offset := 0
      scope := ()
      calls := []
      wire := []
      recvs := 0
      dispatched := []
      inbox := inbox }

/-- What a thread outcome shows to an observer: whether the thread function
has returned, the requested state, the bytes sent, the driver calls, the
requests dispatched, the buffered length and the number of `recv` calls. -/
def observe {σ : Type} (r : Option (Bool × Session σ)) :
    Option (Bool × State × List Nat × List ScopeCall × List Message × Nat × Nat) :=
  r.map fun p =>
    (p.1, p.2.srv._stateRequested, p.2.wire, p.2.calls, p.2.dispatched,
      p.2.msg_buf_len, p.2.recvs)

/-- The session `demoSession []` after `recv` has stored `bytes` at the start
of the reassembly buffer. -/
def bufferedSession (bytes : List Nat) : Session Unit :=
  { demoSession [] with
    srv := { (demoSession []).srv with
      msg_buf := writeBytes (demoSession []).srv.msg_buf 0 bytes }
    msg_buf_len := bytes.length
    recvs := 1 }

/-- The part of the session state that only `recv`, the frame gate and
`copy_down` change: the reassembly buffer with its length and read position,
the pending input, the `recv` count, the list of dispatched requests and
`_connected`. -/
def SameFrame {σ : Type} (s s' : Session σ) : Prop :=
  s'.srv.msg_buf = s.srv.msg_buf ∧ s'.msg_buf_len = s.msg_buf_len ∧
  s'.msg_buf_offset = s.msg_buf_offset ∧ s'.dispatched = s.dispatched ∧
  s'.inbox = s.inbox ∧ s'.recvs = s.recvs ∧ s'.srv._connected = s.srv._connected

/-- The session `demoSession inbox` once a `DATA_PORT` request has spawned
the data thread (handle `3`). -/
def dataSession (inbox : List Nat) : Session Unit :=
  { demoSession inbox with
    srv := { (demoSession inbox).srv with _thread_data := 3 } }

/-- The never-failing driver, except that `FlushDataPipe` throws. -/
def failingFlush : Env Unit :=
  { demoEnv with
    scope := { demoScope with FlushDataPipe := fun u => (none, u) } }

theorem step_destroyed (m : Manager) (a : Action) (h : m.srv._state = State.Destroyed) :
    (step m a).srv._state = State.Destroyed ∧ (step m a).trace = m.trace := by
  cases a with
  | start => exact ⟨h, rfl⟩
  | stop => exact ⟨h, rfl⟩
  | destroy => exact ⟨h, rfl⟩
  | tick env =>
    have : ManageState m.srv._thread_state env m = Tick.exited m := by
      unfold ManageState
      simp [h]
    simpa [step, this, Tick.manager] using h

/-- C2. `Destroyed` is absorbing: from a server whose published state is
`Destroyed`, whatever calls of `Start`, `Stop`, `Destroy` and manager ticks
follow, the published state stays `Destroyed` and the manager performs no
further action (so no further `SetState`). -/
theorem destroyed_absorbing (m : Manager) (acts : List Action)
    (h : m.srv._state = State.Destroyed) :
    GetState (run m acts).srv = State.Destroyed ∧ (run m acts).trace = m.trace := by
  induction acts generalizing m with
  | nil => exact ⟨h, rfl⟩
  | cons a acts ih =>
    have hs := step_destroyed m a h
    have := ih (step m a) hs.1
    exact ⟨this.1, this.2.trans hs.2⟩

/-- C2 on a server that has just been destroyed by a manager tick: a later
`Start`, tick, `Stop`, tick leave it `Destroyed`. -/
theorem destroyed_absorbing_witness :
    (run (construct 7 false) [Action.destroy, Action.tick ⟨9, []⟩]).srv._state
        = State.Destroyed ∧
      GetState (run (run (construct 7 false) [Action.destroy, Action.tick ⟨9, []⟩])
        [Action.start, Action.tick ⟨9, [4]⟩, Action.stop, Action.tick ⟨9, []⟩]).srv
        = State.Destroyed ∧
      (run (run (construct 7 false) [Action.destroy, Action.tick ⟨9, []⟩])
        [Action.start, Action.tick ⟨9, [4]⟩, Action.stop, Action.tick ⟨9, []⟩]).trace
        = (run (construct 7 false) [Action.destroy, Action.tick ⟨9, []⟩]).trace :=
  ⟨by decide,
    destroyed_absorbing (run (construct 7 false) [Action.destroy, Action.tick ⟨9, []⟩])
      [Action.start, Action.tick ⟨9, [4]⟩, Action.stop, Action.tick ⟨9, []⟩] (by decide)⟩

/-! ## Lemmas on memory -/

theorem write_same (m : Mem) (a v : Nat) : write m a v a = v := by
  simp [write]

theorem write_other (m : Mem) (a v i : Nat) (h : i ≠ a) : write m a v i = m i := by
  simp [write, h]

theorem window_succ (m : Mem) (a n : Nat) :
    window m a (n + 1) = m a :: window m (a + 1) n := by
  simp only [window, List.range_succ_eq_map, List.map_cons, List.map_map, Nat.add_zero]
  congr 1
  apply List.map_congr_left
  intro i _
  simp only [Function.comp, Nat.succ_eq_add_one]
  congr 1
  omega

theorem window_congr (m m' : Mem) (a b n : Nat)
    (h : ∀ i, i < n → m (a + i) = m' (b + i)) : window m a n = window m' b n := by
  induction n generalizing a b with
  | zero => rfl
  | succ n ih =>
    rw [window_succ, window_succ]
    congr 1
    · simpa using h 0 (by omega)
    · apply ih
      intro i hi
      have := h (i + 1) (by omega)
      rw [show a + 1 + i = a + (i + 1) by omega, show b + 1 + i = b + (i + 1) by omega]
      exact this

theorem window_get (m : Mem) (a n i : Nat) (h : i < n) :
    (window m a n)[i]? = some (m (a + i)) := by
  simp [window, h]

theorem writeBytes_above (m : Mem) (a : Nat) (bs : List Nat) (i : Nat)
    (h : a + bs.length ≤ i) : writeBytes m a bs i = m i := by
  induction bs generalizing m a with
  | nil => rfl
  | cons b bs ih =>
    simp only [List.length_cons] at h
    rw [writeBytes, ih _ _ (by omega), write_other _ _ _ _ (by omega)]

theorem window_writeBytes_after (m : Mem) (a : Nat) (bs : List Nat) (b n : Nat)
    (h : a + bs.length ≤ b) : window (writeBytes m a bs) b n = window m b n := by
  apply window_congr
  intro i hi
  exact writeBytes_above _ _ _ _ (by omega)

theorem rd16_wr16 (m : Mem) (a v : Nat) : rd16 (wr16 m a v) a = v % 65536 := by
  simp only [rd16, wr16]
  rw [write_other _ _ _ _ (by omega), write_same, write_same]
  omega

theorem sub32_of_le (a b : Nat) (h : b ≤ a) (ha : a < 4294967296) : sub32 a b = a - b := by
  unfold sub32
  omega

theorem add32_of_lt (a b : Nat) (h : a + b < 4294967296) : add32 a b = a + b := by
  unfold add32
  omega

/-! ## The frame state is untouched by the dispatch -/

theorem SameFrame.rfl' {σ : Type} (s : Session σ) : SameFrame s s :=
  ⟨rfl, rfl, rfl, rfl, rfl, rfl, rfl⟩

theorem SameFrame.trans' {σ : Type} {a b c : Session σ} (h1 : SameFrame a b)
    (h2 : SameFrame b c) : SameFrame a c :=
  ⟨h2.1.trans h1.1, h2.2.1.trans h1.2.1, h2.2.2.1.trans h1.2.2.1,
    h2.2.2.2.1.trans h1.2.2.2.1, h2.2.2.2.2.1.trans h1.2.2.2.2.1,
    h2.2.2.2.2.2.1.trans h1.2.2.2.2.2.1, h2.2.2.2.2.2.2.trans h1.2.2.2.2.2.2⟩

theorem acquire_sameFrame {σ : Type} (cfg : Config) (env : Env σ) (fuel : Nat)
    (s : Session σ) (r : Flow (Session σ)) (h : acquire cfg env fuel s = some r) :
    SameFrame s r.state ∧ ∀ s', r ≠ Flow.leave s' := by
  induction fuel generalizing s with
  | zero => simp [acquire] at h
  | succ fuel ih =>
    unfold acquire at h
    split at h
    · cases h
      exact ⟨⟨rfl, rfl, rfl, rfl, rfl, rfl, rfl⟩, fun _ h => by cases h⟩
    · dsimp only at h
      split at h
      · have := ih _ h
        exact ⟨SameFrame.trans' ⟨rfl, rfl, rfl, rfl, rfl, rfl, rfl⟩ this.1, this.2⟩
      · cases h
        exact ⟨⟨rfl, rfl, rfl, rfl, rfl, rfl, rfl⟩, fun _ h => by cases h⟩

theorem dispatch_sameFrame {σ : Type} (cfg : Config) (env : Env σ) (fuel req : Nat)
    (s : Session σ) (r : Flow (Session σ)) (h : dispatch cfg env fuel req s = some r) :
    SameFrame s r.state ∧ ∀ s', r ≠ Flow.leave s' := by
  unfold dispatch at h
  dsimp only at h
  split at h
  case h_8 => -- ACQUISITION
    split at h
    · cases h
      exact ⟨⟨rfl, rfl, rfl, rfl, rfl, rfl, rfl⟩, fun _ h => by cases h⟩
    · exact acquire_sameFrame cfg env fuel s r h
  all_goals
    first
    | (cases h; exact ⟨⟨rfl, rfl, rfl, rfl, rfl, rfl, rfl⟩, fun _ h => by cases h⟩)
    | (split at h <;> first
        | (cases h; exact ⟨⟨rfl, rfl, rfl, rfl, rfl, rfl, rfl⟩, fun _ h => by cases h⟩)
        | (split at h <;> cases h <;>
            exact ⟨⟨rfl, rfl, rfl, rfl, rfl, rfl, rfl⟩, fun _ h => by cases h⟩))

theorem reply_sameFrame {σ : Type} (env : Env σ) (fuel : Nat) (s s' : Session σ)
    (h : reply env fuel s = some s') : SameFrame s s' := by
  unfold reply at h
  split at h
  · dsimp only at h
    split at h
    · cases h
    · cases h
      exact ⟨rfl, rfl, rfl, rfl, rfl, rfl, rfl⟩
  · cases h
    exact SameFrame.rfl' s

theorem afterSwitch_sameFrame {σ : Type} (env : Env σ) (fuel : Nat)
    (o : Option (Flow (Session σ))) (s : Session σ) (r : Flow (Session σ))
    (ho : ∀ r0, o = some r0 → SameFrame s r0.state ∧ ∀ s', r0 ≠ Flow.leave s')
    (h : afterSwitch env fuel o = some r) :
    SameFrame s r.state ∧ ∀ s', r ≠ Flow.leave s' := by
  unfold afterSwitch at h
  split at h
  · cases h
  · split at h
    · cases h
    · rename_i s2 _ s3 hr
      cases h
      exact ⟨SameFrame.trans' (ho _ rfl).1 (reply_sameFrame env fuel s2 s3 hr),
        fun _ h => by cases h⟩
  · cases h
    exact ho _ rfl

/-! ## Compaction and the frame gate -/

theorem frameGate_iff {σ : Type} (s : Session σ)
    (h : s.msg_buf_offset ≤ s.msg_buf_len) (hlen : s.msg_buf_len < 4294967296) :
    frameGate s = true ↔
      HDR_SZ ≤ s.msg_buf_len - s.msg_buf_offset ∧
        rd16 s.srv.msg_buf s.msg_buf_offset ≤ s.msg_buf_len - s.msg_buf_offset := by
  simp only [frameGate, sub32_of_le _ _ h hlen, sizeofMessage, HDR_SZ, Bool.and_eq_true,
    decide_eq_true_eq, Bool.not_eq_true', decide_eq_false_iff_not]
  omega

theorem drainBody_open {σ : Type} (cfg : Config) (env : Env σ) (fuel : Nat) (s : Session σ)
    (hg : frameGate s = true) :
    drainBody cfg env fuel s =
      afterSwitch env fuel (dispatch cfg env fuel s.msg_buf_offset (enterSwitch s)) := by
  simp only [frameGate, Bool.and_eq_true, decide_eq_true_eq, Bool.not_eq_true',
    decide_eq_false_iff_not] at hg
  simp only [drainBody, if_pos hg.1, if_neg hg.2]

theorem drainBody_closed {σ : Type} (cfg : Config) (env : Env σ) (fuel : Nat) (s : Session σ)
    (hg : frameGate s = false) : drainBody cfg env fuel s = some (Flow.leave s) := by
  simp only [frameGate, Bool.and_eq_false_iff, decide_eq_false_iff_not, Bool.not_eq_false',
    decide_eq_true_eq] at hg
  unfold drainBody
  rcases hg with hg | hg
  · rw [if_neg hg]
  · split
    · rfl
    · rfl

theorem drainBody_sameFrame {σ : Type} (cfg : Config) (env : Env σ) (fuel : Nat)
    (s : Session σ) (hg : frameGate s = true) (r : Flow (Session σ))
    (h : drainBody cfg env fuel s = some r) :
    SameFrame (enterSwitch s) r.state ∧ ∀ s', r ≠ Flow.leave s' := by
  rw [drainBody_open cfg env fuel s hg] at h
  exact afterSwitch_sameFrame env fuel _ _ r
    (fun r0 h0 => dispatch_sameFrame cfg env fuel _ _ r0 h0) h

/-- C5, amended. With `offset <= len`, the frame at `offset` is let through to
the `switch` if and only if `len - offset >= HDR_SZ` and `len - offset >=
frame.length`, where `frame.length` is the little-endian `uint16` at
`buf[offset]` (it counts the whole frame, header included).  A frame that is
not let through leaves the session untouched for `copy_down`; one that is
enters the `switch` noted as dispatched and with `offset` advanced by exactly
`frame.length`, and whatever the dispatch does leaves that offset in place. -/
theorem frame_gate_by_total_length {σ : Type} (cfg : Config) (env : Env σ) (fuel : Nat)
    (s : Session σ) (h : s.msg_buf_offset ≤ s.msg_buf_len)
    (hlen : s.msg_buf_len < 4294967296) :
    (frameGate s = true ↔
      HDR_SZ ≤ s.msg_buf_len - s.msg_buf_offset ∧
        rd16 s.srv.msg_buf s.msg_buf_offset ≤ s.msg_buf_len - s.msg_buf_offset) ∧
    (frameGate s = false → drainBody cfg env fuel s = some (Flow.leave s)) ∧
    (frameGate s = true →
      drainBody cfg env fuel s =
          afterSwitch env fuel (dispatch cfg env fuel s.msg_buf_offset (enterSwitch s)) ∧
        (enterSwitch s).msg_buf_offset =
          s.msg_buf_offset + rd16 s.srv.msg_buf s.msg_buf_offset ∧
        (enterSwitch s).dispatched =
          s.dispatched ++ [requestAt s.srv.msg_buf s.msg_buf_offset] ∧
        ∀ r, drainBody cfg env fuel s = some r →
          (∀ s', r ≠ Flow.leave s') ∧
          r.state.msg_buf_offset = s.msg_buf_offset + rd16 s.srv.msg_buf s.msg_buf_offset ∧
          r.state.dispatched = s.dispatched ++ [requestAt s.srv.msg_buf s.msg_buf_offset]) := by
  refine ⟨frameGate_iff s h hlen, drainBody_closed cfg env fuel s, fun hg => ?_⟩
  have hb := ((frameGate_iff s h hlen).1 hg).2
  have hoff : (enterSwitch s).msg_buf_offset =
      s.msg_buf_offset + rd16 s.srv.msg_buf s.msg_buf_offset :=
    add32_of_lt _ _ (by omega)
  refine ⟨drainBody_open cfg env fuel s hg, hoff, rfl, fun r hr => ?_⟩
  have := drainBody_sameFrame cfg env fuel s hg r hr
  exact ⟨this.2, this.1.2.2.1.trans hoff, this.1.2.2.2.1⟩

/-- C5, amended, on the three buffered bytes `[3, 0, FLUSH]`: the gate is
open and the `FLUSH` request is dispatched with the offset moved to `3`. -/
theorem frame_gate_by_total_length_witness :
    frameGate (bufferedSession [3, 0, 14]) = true ∧
      ∀ r, drainBody demoConfig demoEnv 5 (bufferedSession [3, 0, 14]) = some r →
        (∀ s', r ≠ Flow.leave s') ∧ r.state.msg_buf_offset = 0 + 3 ∧
        r.state.dispatched = [] ++ [{ length := 3, cmd := 14, data := [] }] :=
  ⟨by decide,
    ((frame_gate_by_total_length demoConfig demoEnv 5 (bufferedSession [3, 0, 14])
      (by decide) (by decide)).2.2 (by decide)).2.2.2⟩

/-- C5 as stated fails: with the three bytes `[3, 0, FLUSH]` buffered,
`len - offset = 3` is less than `HDR_SZ + frame.length = 6`, yet the request is
let through and dispatched, and the offset advances by `3`, not by `6`. -/
theorem frame_gate_counterexample :
    ¬ ((bufferedSession [3, 0, 14]).msg_buf_len - (bufferedSession [3, 0, 14]).msg_buf_offset
        ≥ HDR_SZ + rd16 (bufferedSession [3, 0, 14]).srv.msg_buf
            (bufferedSession [3, 0, 14]).msg_buf_offset) ∧
      frameGate (bufferedSession [3, 0, 14]) = true ∧
      (drainBody demoConfig demoEnv 5 (bufferedSession [3, 0, 14])).map
          (fun r => (r.state.msg_buf_offset, r.state.dispatched, r.state.calls))
        = some (3, [{ length := 3, cmd := 14, data := [] }], [ScopeCall.FlushDataPipe]) ∧
      (3 : Nat) ≠ HDR_SZ + rd16 (bufferedSession [3, 0, 14]).srv.msg_buf
            (bufferedSession [3, 0, 14]).msg_buf_offset := by
  refine ⟨by decide, by decide, by rfl, by decide⟩

/-! ## Requests without a reply, and the data-path guard -/

theorem reply_of_zero {σ : Type} (env : Env σ) (fuel : Nat) (s : Session σ)
    (h : s.respLength = 0) : reply env fuel s = some s := by
  simp [reply, h]

theorem respLength_setRespLength {σ : Type} (s : Session σ) (v : Nat) :
    (s.setRespLength v).respLength = v % 65536 := by
  simp [Session.respLength, Session.setRespLength, rd16_wr16]

theorem drainBody_FLUSH {σ : Type} (cfg : Config) (env : Env σ) (fuel : Nat) (s : Session σ)
    (hg : frameGate s = true)
    (hc : cfg.decode (s.srv.msg_buf (s.msg_buf_offset + 2)) = Command.FLUSH) :
    drainBody cfg env fuel s =
      match env.scope.FlushDataPipe s.scope with
      | (none, sc) => some (Flow.scopeIOException
          (((enterSwitch s).setRespLength 0).called ScopeCall.FlushDataPipe sc))
      | (some _, sc) => some (Flow.next
          (((enterSwitch s).setRespLength 0).called ScopeCall.FlushDataPipe sc)) := by
  rw [drainBody_open cfg env fuel s hg]
  have hc' : cfg.decode ((enterSwitch s).srv.msg_buf (s.msg_buf_offset + 2))
      = Command.FLUSH := hc
  have hs : ((enterSwitch s).setRespLength 0).scope = s.scope := rfl
  simp only [dispatch, hc', hs]
  rcases hr : env.scope.FlushDataPipe s.scope with ⟨_ | u, sc⟩
  · rfl
  · simp only [afterSwitch]
    rw [reply_of_zero]
    exact respLength_setRespLength _ 0

theorem drainBody_SET {σ : Type} (cfg : Config) (env : Env σ) (fuel : Nat) (s : Session σ)
    (hg : frameGate s = true)
    (hc : cfg.decode (s.srv.msg_buf (s.msg_buf_offset + 2)) = Command.SET) :
    drainBody cfg env fuel s =
      match env.scope.SetControllerRegister s.scope
          (s.srv.msg_buf (s.msg_buf_offset + 3)) (rd16 s.srv.msg_buf (s.msg_buf_offset + 4))
          (rd16 s.srv.msg_buf (s.msg_buf_offset + 6))
          (window s.srv.msg_buf (s.msg_buf_offset + 8)
            (rd16 s.srv.msg_buf (s.msg_buf_offset + 6))) with
      | (none, sc) => some (Flow.scopeIOException
          (((enterSwitch s).setRespLength 0).called
            (ScopeCall.SetControllerRegister
              (s.srv.msg_buf (s.msg_buf_offset + 3)) (rd16 s.srv.msg_buf (s.msg_buf_offset + 4))
              (rd16 s.srv.msg_buf (s.msg_buf_offset + 6))
              (window s.srv.msg_buf (s.msg_buf_offset + 8)
                (rd16 s.srv.msg_buf (s.msg_buf_offset + 6)))) sc))
      | (some _, sc) => some (Flow.next
          (((enterSwitch s).setRespLength 0).called
            (ScopeCall.SetControllerRegister
              (s.srv.msg_buf (s.msg_buf_offset + 3)) (rd16 s.srv.msg_buf (s.msg_buf_offset + 4))
              (rd16 s.srv.msg_buf (s.msg_buf_offset + 6))
              (window s.srv.msg_buf (s.msg_buf_offset + 8)
                (rd16 s.srv.msg_buf (s.msg_buf_offset + 6)))) sc)) := by
  rw [drainBody_open cfg env fuel s hg]
  have hs : ((enterSwitch s).setRespLength 0).scope = s.scope := rfl
  have hm : (enterSwitch s).srv.msg_buf = s.srv.msg_buf := rfl
  simp only [dispatch, hm, hc, hs, sizeofMessage, sizeofControllerMessage, Nat.add_assoc,
    Nat.reduceAdd]
  rcases hr : env.scope.SetControllerRegister s.scope
      (s.srv.msg_buf (s.msg_buf_offset + 3)) (rd16 s.srv.msg_buf (s.msg_buf_offset + 4))
      (rd16 s.srv.msg_buf (s.msg_buf_offset + 6))
      (window s.srv.msg_buf (s.msg_buf_offset + 8)
        (rd16 s.srv.msg_buf (s.msg_buf_offset + 6))) with ⟨_ | u, sc⟩
  · rfl
  · simp only [afterSwitch]
    rw [reply_of_zero]
    exact respLength_setRespLength _ 0

theorem drainBody_DISCONNECT {σ : Type} (cfg : Config) (env : Env σ) (fuel : Nat)
    (s : Session σ) (hg : frameGate s = true)
    (hc : cfg.decode (s.srv.msg_buf (s.msg_buf_offset + 2)) = Command.DISCONNECT) :
    drainBody cfg env fuel s =
      match env.scope.FlushDataPipe s.scope with
      | (none, sc) => some (Flow.scopeIOException
          (((enterSwitch s).setRespLength 0).called ScopeCall.FlushDataPipe sc))
      | (some _, sc) => some (Flow.returned
          (((enterSwitch s).setRespLength 0).called ScopeCall.FlushDataPipe sc).stop) := by
  rw [drainBody_open cfg env fuel s hg]
  have hc' : cfg.decode ((enterSwitch s).srv.msg_buf (s.msg_buf_offset + 2))
      = Command.DISCONNECT := hc
  have hs : ((enterSwitch s).setRespLength 0).scope = s.scope := rfl
  simp only [dispatch, hc', hs]
  rcases hr : env.scope.FlushDataPipe s.scope with ⟨_ | u, sc⟩ <;> rfl

theorem drainBody_guard {σ : Type} (cfg : Config) (env : Env σ) (fuel : Nat)
    (s : Session σ) (hg : frameGate s = true) (hd : s.srv._thread_data ≠ 0)
    (hc : cfg.decode (s.srv.msg_buf (s.msg_buf_offset + 2)) = Command.DATA ∨
      cfg.decode (s.srv.msg_buf (s.msg_buf_offset + 2)) = Command.ACQUISITION) :
    drainBody cfg env fuel s = some (Flow.netException (enterSwitch s)) := by
  rw [drainBody_open cfg env fuel s hg]
  have hd' : (enterSwitch s).srv._thread_data ≠ 0 := hd
  rcases hc with hc | hc
  · have hc' : cfg.decode ((enterSwitch s).srv.msg_buf (s.msg_buf_offset + 2))
        = Command.DATA := hc
    simp only [dispatch, hc', hd', ne_eq, not_false_eq_true, if_true, afterSwitch]
  · have hc' : cfg.decode ((enterSwitch s).srv.msg_buf (s.msg_buf_offset + 2))
        = Command.ACQUISITION := hc
    simp only [dispatch, hc', hd', ne_eq, not_false_eq_true, if_true, afterSwitch]

/-- C8. Empty-reply suppression: a complete `FLUSH`, `SET` or `DISCONNECT`
request, whatever its payload, puts no byte on the control socket.  Its
effects are the driver call of its row (`FlushDataPipe`,
`SetControllerRegister` with the fields of the request, `FlushDataPipe`);
after it `FLUSH` and `SET` go on with the next frame and leave the requested
state alone, `DISCONNECT` requests `Stopped` and returns from the session.
(When the driver call throws, the session ends with the `ScopeIOException`
instead, still without a byte sent.) -/
theorem empty_reply_suppression {σ : Type} (cfg : Config) (env : Env σ) (fuel : Nat)
    (s : Session σ) (hg : frameGate s = true) :
    (cfg.decode (s.srv.msg_buf (s.msg_buf_offset + 2)) = Command.FLUSH →
      ∃ r, drainBody cfg env fuel s = some r ∧ r.state.wire = s.wire ∧
        r.state.calls = s.calls ++ [ScopeCall.FlushDataPipe] ∧
        r.state.srv._stateRequested = s.srv._stateRequested ∧
        r = (if (env.scope.FlushDataPipe s.scope).1.isSome then Flow.next r.state
          else Flow.scopeIOException r.state)) ∧
    (cfg.decode (s.srv.msg_buf (s.msg_buf_offset + 2)) = Command.SET →
      ∃ r, drainBody cfg env fuel s = some r ∧ r.state.wire = s.wire ∧
        r.state.calls = s.calls ++ [ScopeCall.SetControllerRegister
          (s.srv.msg_buf (s.msg_buf_offset + 3)) (rd16 s.srv.msg_buf (s.msg_buf_offset + 4))
          (rd16 s.srv.msg_buf (s.msg_buf_offset + 6))
          (window s.srv.msg_buf (s.msg_buf_offset + 8)
            (rd16 s.srv.msg_buf (s.msg_buf_offset + 6)))] ∧
        r.state.srv._stateRequested = s.srv._stateRequested ∧
        r = (if (env.scope.SetControllerRegister s.scope
            (s.srv.msg_buf (s.msg_buf_offset + 3)) (rd16 s.srv.msg_buf (s.msg_buf_offset + 4))
            (rd16 s.srv.msg_buf (s.msg_buf_offset + 6))
            (window s.srv.msg_buf (s.msg_buf_offset + 8)
              (rd16 s.srv.msg_buf (s.msg_buf_offset + 6)))).1.isSome then Flow.next r.state
          else Flow.scopeIOException r.state)) ∧
    (cfg.decode (s.srv.msg_buf (s.msg_buf_offset + 2)) = Command.DISCONNECT →
      ∃ r, drainBody cfg env fuel s = some r ∧ r.state.wire = s.wire ∧
        r.state.calls = s.calls ++ [ScopeCall.FlushDataPipe] ∧
        ((env.scope.FlushDataPipe s.scope).1.isSome →
          r.state.srv._stateRequested = State.Stopped) ∧
        r = (if (env.scope.FlushDataPipe s.scope).1.isSome then Flow.returned r.state
          else Flow.scopeIOException r.state)) := by
  refine ⟨fun hc => ?_, fun hc => ?_, fun hc => ?_⟩
  · rw [drainBody_FLUSH cfg env fuel s hg hc]
    rcases env.scope.FlushDataPipe s.scope with ⟨_ | u, sc⟩
    · exact ⟨_, rfl, rfl, rfl, rfl, rfl⟩
    · exact ⟨_, rfl, rfl, rfl, rfl, rfl⟩
  · rw [drainBody_SET cfg env fuel s hg hc]
    rcases env.scope.SetControllerRegister s.scope
        (s.srv.msg_buf (s.msg_buf_offset + 3)) (rd16 s.srv.msg_buf (s.msg_buf_offset + 4))
        (rd16 s.srv.msg_buf (s.msg_buf_offset + 6))
        (window s.srv.msg_buf (s.msg_buf_offset + 8)
          (rd16 s.srv.msg_buf (s.msg_buf_offset + 6))) with ⟨_ | u, sc⟩
    · exact ⟨_, rfl, rfl, rfl, rfl, rfl⟩
    · exact ⟨_, rfl, rfl, rfl, rfl, rfl⟩
  · rw [drainBody_DISCONNECT cfg env fuel s hg hc]
    rcases env.scope.FlushDataPipe s.scope with ⟨_ | u, sc⟩
    · exact ⟨_, rfl, rfl, rfl, fun h => (by simp at h), rfl⟩
    · exact ⟨_, rfl, rfl, rfl, fun _ => rfl, rfl⟩

/-- C8 on the three requests `FLUSH`, `SET` (register write of two bytes) and
`DISCONNECT`, each buffered alone, and on `FLUSH` with a driver whose
`FlushDataPipe` throws. -/
theorem empty_reply_suppression_witness :
    (frameGate (bufferedSession [3, 0, 14]) = true ∧
      ∃ r, drainBody demoConfig demoEnv 0 (bufferedSession [3, 0, 14]) = some r ∧
        r.state.wire = [] ∧ r.state.calls = [] ++ [ScopeCall.FlushDataPipe] ∧
        r.state.srv._stateRequested = State.Started ∧ r = Flow.next r.state) ∧
    (∃ r, drainBody demoConfig demoEnv 0 (bufferedSession [10, 0, 25, 1, 2, 0, 2, 0, 8, 9])
        = some r ∧
      r.state.wire = [] ∧
      r.state.calls = [] ++ [ScopeCall.SetControllerRegister 1 2 2 [8, 9]] ∧
      r.state.srv._stateRequested = State.Started ∧ r = Flow.next r.state) ∧
    (∃ r, drainBody demoConfig demoEnv 0 (bufferedSession [3, 0, 15]) = some r ∧
      r.state.wire = [] ∧ r.state.calls = [] ++ [ScopeCall.FlushDataPipe] ∧
      r.state.srv._stateRequested = State.Stopped ∧ r = Flow.returned r.state) ∧
    (∃ r, drainBody demoConfig failingFlush 0 (bufferedSession [3, 0, 14]) = some r ∧
      r.state.wire = [] ∧ r.state.calls = [] ++ [ScopeCall.FlushDataPipe] ∧
      r.state.srv._stateRequested = State.Started ∧ r = Flow.scopeIOException r.state) :=
  ⟨⟨by decide,
      (empty_reply_suppression demoConfig demoEnv 0 (bufferedSession [3, 0, 14])
        (by decide)).1 (by decide)⟩,
    (empty_reply_suppression demoConfig demoEnv 0
      (bufferedSession [10, 0, 25, 1, 2, 0, 2, 0, 8, 9]) (by decide)).2.1 (by decide),
    by
      obtain ⟨r, h1, h2, h3, h4, h5⟩ :=
        (empty_reply_suppression demoConfig demoEnv 0 (bufferedSession [3, 0, 15])
          (by decide)).2.2 (by decide)
      exact ⟨r, h1, h2, h3, h4 rfl, h5⟩,
    (empty_reply_suppression demoConfig failingFlush 0 (bufferedSession [3, 0, 14])
      (by decide)).1 (by decide)⟩

theorem drainLoop_guard {σ : Type} (cfg : Config) (env : Env σ) (fuel n : Nat)
    (s : Session σ) (hg : frameGate s = true) (hd : s.srv._thread_data ≠ 0)
    (hc : cfg.decode (s.srv.msg_buf (s.msg_buf_offset + 2)) = Command.DATA ∨
      cfg.decode (s.srv.msg_buf (s.msg_buf_offset + 2)) = Command.ACQUISITION) :
    drainLoop cfg env fuel (n + 1) s = some (Flow.netException (enterSwitch s)) := by
  simp only [drainLoop, drainBody_guard cfg env fuel s hg hd hc]

/-- C6. Data-path exclusivity: while the data thread handle is set, a
complete `DATA` or `ACQUISITION` request at the read position makes the frame
loop throw the `NetException` of the guard before anything is sent or asked of
the driver, so the thread entry requests `Stopped`; and when such a request is
completed by a `recv` of a session blocked there, the thread function returns
with the requested state `Stopped`, no byte sent, no driver call made and no
further `recv` issued. -/
theorem data_path_exclusivity {σ : Type} (cfg : Config) (env : Env σ) (fuel : Nat)
    (s : Session σ) (hd : s.srv._thread_data ≠ 0) :
    (frameGate s = true →
      (cfg.decode (s.srv.msg_buf (s.msg_buf_offset + 2)) = Command.DATA ∨
        cfg.decode (s.srv.msg_buf (s.msg_buf_offset + 2)) = Command.ACQUISITION) →
      ∃ s', drain cfg env (fuel + 1) s = some (Flow.netException s') ∧
        s'.wire = s.wire ∧ s'.calls = s.calls ∧
        (threadOutcome (Flow.netException s')).1 = true ∧
        (threadOutcome (Flow.netException s')).2.srv._stateRequested = State.Stopped ∧
        (threadOutcome (Flow.netException s')).2.wire = s.wire ∧
        (threadOutcome (Flow.netException s')).2.calls = s.calls) ∧
    (∀ n evs, s.srv._connected = true → s.msg_buf_offset = 0 →
      frameGate (recvStep cfg s n false) = true →
      (cfg.decode ((recvStep cfg s n false).srv.msg_buf 2) = Command.DATA ∨
        cfg.decode ((recvStep cfg s n false).srv.msg_buf 2) = Command.ACQUISITION) →
      ∃ s', ThreadStartControlSocketServer cfg env (fuel + 1) (Ev.recv n false :: evs) s
          = some (true, s') ∧
        s'.srv._stateRequested = State.Stopped ∧ s'.wire = s.wire ∧ s'.calls = s.calls ∧
        s'.recvs = s.recvs + 1) := by
  constructor
  · intro hg hc
    exact ⟨_, drainLoop_guard cfg env (fuel + 1) fuel s hg hd hc, rfl, rfl, rfl, rfl, rfl, rfl⟩
  · intro n evs hconn hoff hg hc
    have hoff' : (recvStep cfg s n false).msg_buf_offset = 0 := hoff
    have hc' : cfg.decode ((recvStep cfg s n false).srv.msg_buf
          ((recvStep cfg s n false).msg_buf_offset + 2)) = Command.DATA ∨
        cfg.decode ((recvStep cfg s n false).srv.msg_buf
          ((recvStep cfg s n false).msg_buf_offset + 2)) = Command.ACQUISITION := by
      rw [hoff']
      exact hc
    have hlen : ¬ (recvStep cfg s n false).msg_buf_len < sizeofMessage - 1 := by
      have hg' := hg
      simp only [frameGate, Bool.and_eq_true, decide_eq_true_eq] at hg'
      have h1 := hg'.1
      rw [hoff'] at h1
      have hlt : (recvStep cfg s n false).msg_buf_len < 4294967296 :=
        Nat.mod_lt _ (by decide)
      rw [sub32_of_le _ _ (Nat.zero_le _) hlt] at h1
      simp only [sizeofMessage] at h1 ⊢
      omega
    have hconn' : (recvStep cfg s n false).srv._connected = true := rfl
    have hdr := drainLoop_guard cfg env (fuel + 1) fuel (recvStep cfg s n false) hg hd hc'
    refine ⟨((enterSwitch (recvStep cfg s n false)).stop), ?_, rfl, rfl, rfl, rfl⟩
    simp only [ThreadStartControlSocketServer, recvLoop, hconn, if_true, hlen, if_false, hconn',
      drain, hdr, Option.map_some', threadOutcome]

/-- C6 on a session whose data thread runs: the request `DATA` for `0x0400`
bytes, received in one piece, ends the thread with `Stopped` requested. -/
theorem data_path_exclusivity_witness :
    (dataSession [5, 0, 26, 0, 4]).srv._thread_data ≠ 0 ∧
      ∃ s', ThreadStartControlSocketServer demoConfig demoEnv (0 + 1)
          (Ev.recv 100 false :: [Ev.recv 100 false]) (dataSession [5, 0, 26, 0, 4])
          = some (true, s') ∧
        s'.srv._stateRequested = State.Stopped ∧ s'.wire = [] ∧ s'.calls = [] ∧
        s'.recvs = 0 + 1 :=
  ⟨by decide,
    (data_path_exclusivity demoConfig demoEnv 0 (dataSession [5, 0, 26, 0, 4])
      (by decide)).2 100 [Ev.recv 100 false] rfl rfl (by decide) (Or.inl (by decide))⟩

/-! ## Where the code departs from the claims: `recv` returning `0`, and a
zero length field -/

theorem recvLoop_recv_zero {σ : Type} (cfg : Config) (env : Env σ) (fuel : Nat)
    (k : Nat) (s : Session σ) (hconn : s.srv._connected = true) (hin : s.inbox = [])
    (hlen : s.msg_buf_len < sizeofMessage - 1) :
    ∃ s', recvLoop cfg env fuel (List.replicate k (Ev.recv 0 false)) s = some (Flow.next s') ∧
      s'.recvs = s.recvs + k ∧ s'.wire = s.wire ∧
      s'.srv._stateRequested = s.srv._stateRequested := by
  induction k generalizing s with
  | zero => exact ⟨s, by simp [recvLoop, hconn], rfl, rfl, rfl⟩
  | succ k ih =>
    have hl : (recvStep cfg s 0 false).msg_buf_len = s.msg_buf_len := by
      simp only [recvStep, Nat.zero_min, add32, Nat.add_zero]
      simp only [sizeofMessage] at hlen
      omega
    have hl' : (recvStep cfg s 0 false).msg_buf_len < sizeofMessage - 1 := by
      rw [hl]; exact hlen
    have hi : (recvStep cfg s 0 false).inbox = [] := by
      simp [recvStep, hin]
    obtain ⟨s', h1, h2, h3, h4⟩ := ih (recvStep cfg s 0 false) rfl hi hl'
    refine ⟨s', ?_, ?_, h3, h4⟩
    · simp only [List.replicate_succ, recvLoop, hconn, if_true, hl']
      exact h1
    · rw [h2]
      simp only [recvStep]
      omega

/-- C7, the code at the failing input: three `recv` calls in a row return `0`
(the peer has closed, nothing is pending) and the thread function has not
returned after them (`false`), with nothing requested; a `recv` of `-1`
instead ends it at once with `Stopped` requested and the later `recv` never
issued. -/
theorem recv_zero_does_not_end_session :
    observe (ThreadStartControlSocketServer demoConfig demoEnv 5
        [Ev.recv 0 false, Ev.recv 0 false, Ev.recv 0 false] (demoSession []))
      = some (false, State.Started, [], [], [], 0, 3) ∧
    observe (ThreadStartControlSocketServer demoConfig demoEnv 5
        [Ev.recvError, Ev.recv 0 false, Ev.recv 0 false] (demoSession []))
      = some (true, State.Stopped, [], [], [], 0, 1) := by
  constructor <;> rfl

theorem dispatch_SERIAL {σ : Type} (cfg : Config) (env : Env σ) (fuel req : Nat)
    (s : Session σ) (serial : List Nat) (sc : σ)
    (hc : cfg.decode (s.srv.msg_buf (req + 2)) = Command.SERIAL)
    (h : env.scope.GetSerial s.scope = (some serial, sc)) :
    dispatch cfg env fuel req s =
      some (Flow.next (((s.called ScopeCall.GetSerial sc).setRespLength 11).storeData 0
        (((if serial.length = 0 then fallbackSerial else serial) ++ [0]).take 11))) := by
  simp only [dispatch, hc, h, respLength_setRespLength]

theorem drainLoop_zero_length {σ : Type} (cfg : Config) (env : Env σ) (fuel n : Nat)
    (s : Session σ) (hg : frameGate s = true)
    (hz : rd16 s.srv.msg_buf s.msg_buf_offset = 0) (hoff : s.msg_buf_offset < 4294967296)
    (hc : cfg.decode (s.srv.msg_buf (s.msg_buf_offset + 2)) = Command.SERIAL)
    (hser : ∀ u, (env.scope.GetSerial u).1 ≠ none) :
    drainLoop cfg env fuel n s = none := by
  induction n generalizing s with
  | zero => rfl
  | succ n ih =>
    unfold drainLoop
    cases hb : drainBody cfg env fuel s with
    | none => rfl
    | some r =>
      have hsf := drainBody_sameFrame cfg env fuel s hg r hb
      have hoff' : (enterSwitch s).msg_buf_offset = s.msg_buf_offset := by
        simp only [enterSwitch, hz, add32, Nat.add_zero]
        omega
      have hnext : ∃ s3, r = Flow.next s3 := by
        rw [drainBody_open cfg env fuel s hg] at hb
        rcases hs : env.scope.GetSerial s.scope with ⟨_ | serial, sc⟩
        · exact absurd (congrArg Prod.fst hs) (hser s.scope)
        · rw [dispatch_SERIAL cfg env fuel _ (enterSwitch s) serial sc hc hs] at hb
          simp only [afterSwitch] at hb
          split at hb
          · cases hb
          · cases hb
            exact ⟨_, rfl⟩
      obtain ⟨s3, rfl⟩ := hnext
      simp only
      have e1 : s3.srv.msg_buf = s.srv.msg_buf := hsf.1.1
      have e2 : s3.msg_buf_len = s.msg_buf_len := hsf.1.2.1
      have e3 : s3.msg_buf_offset = s.msg_buf_offset := hsf.1.2.2.1.trans hoff'
      apply ih s3
      · simp only [frameGate, e1, e2, e3]
        exact hg
      · rw [e1, e3]; exact hz
      · rw [e3]; exact hoff
      · rw [e1, e3]; exact hc

/-- C10, the code at the failing input: with the frame `{len=0, cmd=SERIAL}`
buffered, an iteration of the frame loop dispatches the request, sends the
reply and leaves `msg_buf_offset` at `0` with the gate still open; so the
frame loop does not come to an end within any number of iterations. -/
theorem zero_length_frame_never_drained :
    (drainBody demoConfig demoEnv 20 (bufferedSession [0, 0, 13])).map
        (fun r => (r.state.msg_buf_offset, frameGate r.state, r.state.dispatched,
          r.state.wire))
      = some (0, true, [{ length := 0, cmd := 13, data := [] }],
          [14, 0, 13, 48, 50, 53, 52, 51, 48, 49, 75, 65, 49, 54]) ∧
    (drainLoop demoConfig demoEnv 20 2 (bufferedSession [0, 0, 13])) = none ∧
    ∀ fuel n, drainLoop demoConfig demoEnv fuel n (bufferedSession [0, 0, 13]) = none := by
  refine ⟨by rfl, by rfl, fun fuel n => ?_⟩
  exact drainLoop_zero_length demoConfig demoEnv fuel n (bufferedSession [0, 0, 13])
    (by decide) (by decide) (by decide) (by decide) (fun _ => by simp [demoEnv, demoScope])

/-! ## The reply block -/

end labnation
